/-
Verification of the fluid-dynamics simulation library (FluidDynanmics class,
`src/webgl-utils.js` and the fluid-dynamics module) against its specification.

Shallow embedding notes:
* JS numbers are modelled as exact rationals (ℚ).  `Math.PI` is modelled as the
  IEEE-754 double closest to π (`piJS`), which is the exact value JS computes with.
* GPU texture contents are abstract: the embedding is parametric in a type `τ` of
  texture data and a `PassSem τ` record giving one semantic function per fragment
  shader program (advection, curl, divergence, pressure, transform, splat,
  ellipsis) plus the read-back pressure-force computation of `_updateSolids`.
  All orchestration claims are proved for every such semantics, hence they hold
  regardless of the field values.
* Double buffers follow `createDoubleTextureFBO`: a `read` and a `write`
  framebuffer and a `swap` exchanging them.  Each framebuffer carries a GL
  resource id so that `delete()` calls can be tracked (`deletedIds`).
* JS `undefined`-able instance fields (`_width`, `_height`, `_simScale`,
  `_dyeScale`, `_now`) are modelled as `Option ℚ` (names `widthSnap`, … ,
  `nowSnap`).  JS truthiness of a number (`x || d`, `if (x)`) is modelled by
  `jsOr` / explicit `≠ 0` tests.
* The half-float decoder `uInt16ToFloat32` is modelled bit-exactly on ℕ
  (`uInt16ToFloat32bits` produces the 32-bit pattern the JS code stores into the
  Uint32Array), together with exact value semantics for IEEE binary16/binary32.
-/
import Mathlib

/-- JS `Math.PI`: the IEEE-754 double closest to π, as an exact rational. -/
def piJS : ℚ := 884279719003555 / 281474976710656

/-- JS `a || b` for an optional numeric property: the property value if present
and non-zero (truthy), otherwise the default. -/
def jsOr (v : Option ℚ) (d : ℚ) : ℚ :=
  match v with
  | some x => if x = 0 then d else x
  | none => d

/-- `identityMatrix4(s1, s2, s3, s4)` from the source: a scaled identity 4×4
matrix in column-major order (absent JS arguments default to 1 and are passed
explicitly here). -/
def identityMatrix4 (s1 s2 s3 s4 : ℚ) : List ℚ :=
  [s1, 0, 0, 0, 0, s2, 0, 0, 0, 0, s3, 0, 0, 0, 0, s4]

/-- `identityTransform(s)` from the source. -/
def identityTransform (s : ℚ) : List ℚ := identityMatrix4 s s s 1

/-- `rToRG(s)` from the source: maps the red channel to `s·r` and the green
channel to `-s·r`. -/
def rToRG (s : ℚ) : List ℚ :=
  [s, -s, 0, 0, 0, 0, 0, 0, 0, 0, 0, 0, 0, 0, 0, 1]

/-- A solid body as documented on the `solids` field of the class: position and
velocity in screen pixels, radius, optional density and optional mass. -/
structure Solid where
  position : ℚ × ℚ
  velocity : ℚ × ℚ
  radius : ℚ
  density : Option ℚ
  mass : Option ℚ

/-- `sampleSize = Math.floor(solid.radius * this.simScale) * 2 + 2` from
`_updateSolids`. -/
def sampleSize (radius simScale : ℚ) : ℚ :=
  ((⌊radius * simScale⌋ : ℤ) : ℚ) * 2 + 2

/-- `r = (sampleSize - 1) / 2` from `_updateSolids`: the radius of the pressure
sampling window in simulation-grid pixels. -/
def sampleRadius (radius simScale : ℚ) : ℚ :=
  (sampleSize radius simScale - 1) / 2

/-- `mass = solid.mass || ((solid.density || 1) * Math.PI * r * r)` from
`_updateSolids`.  Note the code uses the sampling-window radius `r`, not
`solid.radius`. -/
def solidMass (s : Solid) (simScale : ℚ) : ℚ :=
  jsOr s.mass (jsOr s.density 1 * piJS * sampleRadius s.radius simScale
    * sampleRadius s.radius simScale)

/-- The in-place mutation of one solid performed by `_updateSolids`:
`velocity[i] += pForce[i] / mass; position[i] += velocity[i] * dt` (the force
`pForce` is the accumulated pressure-gradient force, abstracted). -/
def updateSolidMotion (pF : ℚ × ℚ) (dt simScale : ℚ) (s : Solid) : Solid :=
  let m := solidMass s simScale
  let v : ℚ × ℚ := (s.velocity.1 + pF.1 / m, s.velocity.2 + pF.2 / m)
  { s with velocity := v, position := (s.position.1 + v.1 * dt, s.position.2 + v.2 * dt) }

/-- A framebuffer-attached texture (`createTextureFBO`): GL resource id, the
width/height passed at creation (kept as the exact JS number, which may be
fractional) and its abstract contents. -/
structure FBO (τ : Type) where
  id : ℕ
  width : ℚ
  height : ℚ
  data : τ

/-- A double framebuffer (`createDoubleTextureFBO`) with `read`/`write` roles. -/
structure DoubleFBO (τ : Type) where
  read : FBO τ
  write : FBO τ

/-- `swap()` of a double framebuffer: exchanges the read/write roles. -/
def DoubleFBO.swap {τ : Type} (b : DoubleFBO τ) : DoubleFBO τ := ⟨b.write, b.read⟩

/-- The ubiquitous `_blit(buffer.write); buffer.swap()` pattern: the pass
output `d` lands in the write framebuffer, then read/write roles swap. -/
def blitSwap {τ : Type} (b : DoubleFBO τ) (d : τ) : DoubleFBO τ :=
  DoubleFBO.swap { b with write := { b.write with data := d } }

/-- Uniforms of the `splat` program as set by `setDye`/`setVelocity` (the
ellipse transform is kept as its raw arguments). -/
structure SplatU where
  point : ℚ × ℚ
  color : ℚ × ℚ × ℚ
  angle : ℚ
  major : ℚ
  minor : ℚ

/-- Uniforms of the `ellipsis` program as set by `_drawSolid`. -/
structure EllipseU where
  point : ℚ × ℚ
  color : ℚ × ℚ × ℚ
  radius : ℚ

/-- Abstract semantics of the shader programs: one function per fragment shader
(mapping the sampled input textures and scalar uniforms to the produced texture
contents), plus the pressure read-back force computation of `_updateSolids`
(`readPixels` + the 20-angle surface integral) and the contents of a freshly
cleared texture. -/
structure PassSem (τ : Type) where
  curl : τ → τ
  vorticity : τ → τ → ℚ → ℚ → τ
  divergence : τ → τ
  pressureIter : τ → τ → τ
  gradientSubtract : τ → τ → τ
  advect : τ → τ → ℚ → ℚ → τ
  transform : List ℚ → τ → τ
  splat : SplatU → τ → τ
  ellipsis : EllipseU → τ → τ
  pressureForce : τ → ℚ → Solid → ℚ × ℚ
  clear : τ

/-- A draw issued to the screen by `render()`: the 4×4 transform value, the
source texture contents, and the viewport `(left, bottom, _width, _height)`. -/
structure ScreenDraw (τ : Type) where
  value : List ℚ
  source : τ
  viewport : ℚ × ℚ × ℚ × ℚ

/-- A `renderTransforms` entry: either a scalar or an explicit matrix
(`Float32Array` in JS). -/
inductive TVal where
  | scalar (v : ℚ)
  | matrix (m : List ℚ)

/-- Result of the dynamic `this["_" + renderSource]` lookup in `render()`:
a double-buffered field, a single-buffered field, or some other existing
underscore-prefixed instance property (`_gl`, `_width`, …) that is not a
field buffer. -/
inductive SrcVal (τ : Type) where
  | dbl (b : DoubleFBO τ)
  | single (f : FBO τ)
  | nonBuf

/-- The state of a `FluidDynanmics` instance. -/
structure SimState (τ : Type) where
  left : ℚ
  bottom : ℚ
  width : ℚ
  height : ℚ
  simScale : ℚ
  dyeScale : ℚ
  paused : Bool
  velocityDissipation : ℚ
  dyeDissipation : ℚ
  pressureDissipation : ℚ
  maxSimulationStep : ℚ
  pressureIterations : ℕ
  curlStrength : ℚ
  renderSource : String
  renderTransforms : String → Option TVal
  widthSnap : Option ℚ
  heightSnap : Option ℚ
  simScaleSnap : Option ℚ
  dyeScaleSnap : Option ℚ
  nowSnap : Option ℚ
  hasBuffers : Bool
  dye : DoubleFBO τ
  velocity : DoubleFBO τ
  pressure : DoubleFBO τ
  divergence : FBO τ
  curl : FBO τ
  screen : Option (ScreenDraw τ)
  solids : List Solid
  nextId : ℕ
  deletedIds : List ℕ

/-- The literal `config` defaults object at the top of the module. -/
structure FDConfig where
  bottom : ℚ
  left : ℚ
  width : ℚ
  height : ℚ
  simScale : ℚ
  dyeScale : ℚ
  paused : Bool
  velocityDissipation : ℚ
  dyeDissipation : ℚ
  pressureDissipation : ℚ
  maxSimulationStep : ℚ
  pressureIterations : ℕ
  curl : ℚ
  renderSource : String
  autoUpdate : Bool
  updateTimeAlpha : ℚ

/-- The default configuration values from the source. -/
def configDefaults : FDConfig :=
  { bottom := 0, left := 0, width := 100, height := 100, simScale := 1, dyeScale := 1,
    paused := false, velocityDissipation := 1/10, dyeDissipation := 1/10,
    pressureDissipation := 0, maxSimulationStep := 1/20, pressureIterations := 20,
    curl := 3, renderSource := "dye", autoUpdate := true, updateTimeAlpha := 1/120 }

/-- One iteration of the pressure Jacobi loop in `step`: the `pressure` program
reads the current pressure estimate (`uPressure = pressure.read`) and the
divergence field, writes the new estimate into `pressure.write`, and the double
buffer is swapped. -/
def jacobiIter {τ : Type} (sem : PassSem τ) (div : τ) (pb : DoubleFBO τ) : DoubleFBO τ :=
  blitSwap pb (sem.pressureIter pb.read.data div)

/-- `_drawSolid(solid, this._velocity, color)`: splats the solid's velocity
(scaled by `_simScale`) as a filled circle into the velocity field, then swaps. -/
def drawSolid {τ : Type} (sem : PassSem τ) (s : Solid) (st : SimState τ) : SimState τ :=
  let u : EllipseU :=
    { point := (s.position.1 / st.widthSnap.getD 0, s.position.2 / st.heightSnap.getD 0),
      color := (s.velocity.1 * st.simScaleSnap.getD 0, s.velocity.2 * st.simScaleSnap.getD 0, 0),
      radius := s.radius }
  { st with velocity := blitSwap st.velocity (sem.ellipsis u st.velocity.read.data) }

/-- The body of the `for (let solid of this.solids)` loop in `_updateSolids`:
read the pressure force around the solid, integrate velocity and position, and
draw the solid into the velocity field at its new location. -/
def solidTick {τ : Type} (sem : PassSem τ) (dt : ℚ) :
    SimState τ × List Solid → Solid → SimState τ × List Solid := fun acc s =>
  let pF := sem.pressureForce acc.1.pressure.read.data acc.1.simScale s
  let s2 := updateSolidMotion pF dt acc.1.simScale s
  (drawSolid sem s2 acc.1, acc.2 ++ [s2])

/-- `_updateSolids(dt)`. -/
def updateSolids {τ : Type} (sem : PassSem τ) (dt : ℚ) (st : SimState τ) : SimState τ :=
  let r := st.solids.foldl (solidTick sem dt) (st, [])
  { r.1 with solids := r.2 }

/-- The kinds of shader passes issued by one `step(dt)` call. -/
inductive PassEvent where
  | curlPass
  | vorticityPass
  | divergencePass
  | dissipationPass
  | pressureIterPass
  | gradientSubtractPass
  | advectVelocityPass
  | advectDyePass
  | solidPass
deriving DecidableEq

/-- Number of occurrences of a pass event in a trace. -/
def nOccur (e : PassEvent) : List PassEvent → ℕ
  | [] => 0
  | x :: xs => (if x = e then 1 else 0) + nOccur e xs

/-- The trace of passes issued by one `step(dt)` call, in program order.  The
pressure-dissipation pass is conditional on `pressureDissipation` being truthy;
the Jacobi loop runs exactly `pressureIterations` times; the solid loop runs
once per solid.  There is no data-dependent control flow anywhere in `step`. -/
def stepEvents {τ : Type} (st : SimState τ) : List PassEvent :=
  [PassEvent.curlPass, PassEvent.vorticityPass, PassEvent.divergencePass]
    ++ (if st.pressureDissipation ≠ 0 then [PassEvent.dissipationPass] else [])
    ++ List.replicate st.pressureIterations PassEvent.pressureIterPass
    ++ [PassEvent.gradientSubtractPass, PassEvent.advectVelocityPass, PassEvent.advectDyePass]
    ++ List.replicate st.solids.length PassEvent.solidPass

/-- The first phase of `step(dt)`: the curl pass (writes the single curl
buffer), the vorticity-confinement pass (writes velocity, swaps), the
divergence pass (writes the single divergence buffer), and the optional
pressure-dissipation pass (transform by
`identityMatrix4(1 - pressureDissipation*dt)`, swap), run only when
`pressureDissipation` is truthy. -/
def stepPre {τ : Type} (sem : PassSem τ) (dt : ℚ) (st0 : SimState τ) : SimState τ :=
  let st1 := { st0 with curl := { st0.curl with data := sem.curl st0.velocity.read.data } }
  let vortOut := sem.vorticity st1.velocity.read.data st1.curl.data st0.curlStrength dt
  let st2 := { st1 with velocity := blitSwap st1.velocity vortOut }
  let divOut := sem.divergence st2.velocity.read.data
  let st3 := { st2 with divergence := { st2.divergence with data := divOut } }
  let dissOut := sem.transform (identityMatrix4 (1 - st0.pressureDissipation * dt) 1 1 1)
    st3.pressure.read.data
  if st0.pressureDissipation ≠ 0 then
    { st3 with pressure := blitSwap st3.pressure dissOut }
  else st3

/-- The second phase of `step(dt)`: the Jacobi pressure-solve loop, exactly
`pressureIterations` iterations, each reading the current estimate and the
divergence buffer, writing the new estimate and swapping. -/
def stepSolved {τ : Type} (sem : PassSem τ) (dt : ℚ) (st0 : SimState τ) : SimState τ :=
  let st4 := stepPre sem dt st0
  { st4 with pressure := (jacobiIter sem st4.divergence.data)^[st0.pressureIterations] st4.pressure }

/-- The third phase of `step(dt)`: gradient subtraction (writes velocity,
swaps), velocity advection, and dye advection.  The advection program keeps the
velocity texture bound from the velocity-advection call, so the dye advects
along the pre-advection velocity `velAdv`. -/
def stepAdvected {τ : Type} (sem : PassSem τ) (dt : ℚ) (st0 : SimState τ) : SimState τ :=
  let st5 := stepSolved sem dt st0
  let gradOut := sem.gradientSubtract st5.pressure.read.data st5.velocity.read.data
  let st6 := { st5 with velocity := blitSwap st5.velocity gradOut }
  let velAdv := st6.velocity.read.data
  let advVelOut := sem.advect velAdv velAdv dt (1 - st0.velocityDissipation * dt)
  let st7 := { st6 with velocity := blitSwap st6.velocity advVelOut }
  let advDyeOut := sem.advect velAdv st7.dye.read.data dt (1 - st0.dyeDissipation * dt)
  { st7 with dye := blitSwap st7.dye advDyeOut }

/-- `step(dt)` from the source, together with its pass trace: the three shader
phases above followed by `_updateSolids(dt)`. -/
def step {τ : Type} (sem : PassSem τ) (dt : ℚ) (st0 : SimState τ) :
    SimState τ × List PassEvent :=
  (updateSolids sem dt (stepAdvected sem dt st0), stepEvents st0)

/-- `_resizeBuffers(copyData)`: recreates all five buffers at
`width*simScale` / `width*dyeScale` (note: the exact products, no rounding),
then, when old state buffers exist and `copyData` holds, blits the old dye,
velocity and pressure contents into the new storage with the `transform`
program — the velocity field through `identityMatrix4(simWidth/old.w,
simHeight/old.h)`, the dye and pressure fields through `identityMatrix4()` —
swaps each, and deletes the old buffers. -/
def resizeBuffers {τ : Type} (sem : PassSem τ) (copyData : Bool) (st : SimState τ) :
    SimState τ :=
  let simW := st.width * st.simScale
  let simH := st.height * st.simScale
  let dyeW := st.width * st.dyeScale
  let dyeH := st.height * st.dyeScale
  let n := st.nextId
  let newDye : DoubleFBO τ := ⟨⟨n, dyeW, dyeH, sem.clear⟩, ⟨n+1, dyeW, dyeH, sem.clear⟩⟩
  let newVel : DoubleFBO τ := ⟨⟨n+2, simW, simH, sem.clear⟩, ⟨n+3, simW, simH, sem.clear⟩⟩
  let newPr : DoubleFBO τ := ⟨⟨n+4, simW, simH, sem.clear⟩, ⟨n+5, simW, simH, sem.clear⟩⟩
  let newDiv : FBO τ := ⟨n+6, simW, simH, sem.clear⟩
  let newCurl : FBO τ := ⟨n+7, simW, simH, sem.clear⟩
  if st.hasBuffers && copyData then
    let dye2 := blitSwap newDye (sem.transform (identityMatrix4 1 1 1 1) st.dye.read.data)
    let velTm := identityMatrix4 (simW / st.velocity.read.width)
      (simH / st.velocity.read.height) 1 1
    let vel2 := blitSwap newVel (sem.transform velTm st.velocity.read.data)
    let pr2 := blitSwap newPr (sem.transform (identityMatrix4 1 1 1 1) st.pressure.read.data)
    let gone := [st.dye.read.id, st.dye.write.id, st.velocity.read.id, st.velocity.write.id,
      st.pressure.read.id, st.pressure.write.id]
    { st with
      dye := dye2, velocity := vel2, pressure := pr2,
      divergence := newDiv, curl := newCurl, hasBuffers := true, nextId := n + 8,
      deletedIds := st.deletedIds ++ gone }
  else
    { st with
      dye := newDye, velocity := newVel, pressure := newPr,
      divergence := newDiv, curl := newCurl, hasBuffers := true, nextId := n + 8 }

/-- The resize-needed test of `_resizeIfNeeded`: some of width, height,
simScale, dyeScale differs from its snapshot taken at the previous tick. -/
def simChangedB {τ : Type} (st : SimState τ) : Bool :=
  decide (st.widthSnap ≠ some st.width) || decide (st.heightSnap ≠ some st.height)
    || decide (st.simScaleSnap ≠ some st.simScale) || decide (st.dyeScaleSnap ≠ some st.dyeScale)

/-- The solid rescaling inside `_resizeIfNeeded`: positions and velocities are
multiplied by `width/_width` on x and `height/_height` on y. -/
def rescaleSolids {τ : Type} (st : SimState τ) (ow oh : ℚ) : SimState τ :=
  { st with solids := st.solids.map (fun s =>
      { s with position := (s.position.1 * (st.width / ow), s.position.2 * (st.height / oh)),
               velocity := (s.velocity.1 * (st.width / ow), s.velocity.2 * (st.height / oh)) }) }

/-- `_resizeIfNeeded()`: when the size or either scale changed, resize the
buffers (preserving content), rescale the solids when `_width` is truthy, and
take fresh snapshots. -/
def resizeIfNeeded {τ : Type} (sem : PassSem τ) (st : SimState τ) : SimState τ :=
  if simChangedB st then
    let st1 := resizeBuffers sem true st
    let st2 := (match st.widthSnap with
      | some w => if w ≠ 0 then rescaleSolids st1 w (st.heightSnap.getD 0) else st1
      | none => st1)
    { st2 with
      widthSnap := some st.width, heightSnap := some st.height,
      simScaleSnap := some st.simScale, dyeScaleSnap := some st.dyeScale }
  else st

/-- The time delta computed at the top of `_update()`:
`Math.min(this._now ? (now - this._now) / 1000 : 1, this.maxSimulationStep)`.
Note: an upper clamp only — there is no lower clamp at 0. -/
def tickDt {τ : Type} (st : SimState τ) (now : ℚ) : ℚ :=
  min (match st.nowSnap with
       | some p => (now - p) / 1000
       | none => 1)
    st.maxSimulationStep

/-- The existing underscore-prefixed instance properties that are not field
buffers (`this._gl`, `this._aspectRatio`, …, plus the underscore methods):
`this["_" + renderSource]` finds a truthy non-buffer value for these names. -/
def nonBufferProps : List String :=
  ["gl", "aspectRatio", "programs", "vao", "width", "height", "simScale", "dyeScale",
   "now", "defaultRenderTransforms", "update", "resizeIfNeeded", "resizeBuffers",
   "init_vao", "blit", "drawSolid", "updateSolids"]

/-- The dynamic property lookup `this["_" + renderSource]` in `render()`. -/
def underscoreProp {τ : Type} (st : SimState τ) (s : String) : Option (SrcVal τ) :=
  if s = "dye" then some (SrcVal.dbl st.dye)
  else if s = "velocity" then some (SrcVal.dbl st.velocity)
  else if s = "pressure" then some (SrcVal.dbl st.pressure)
  else if s = "divergence" then some (SrcVal.single st.divergence)
  else if s = "curl" then some (SrcVal.single st.curl)
  else if s ∈ nonBufferProps then some SrcVal.nonBuf
  else none

/-- The `_defaultRenderTransforms` table from the source. -/
def defaultRenderTransformsMap (s : String) : Option (ℚ → List ℚ) :=
  if s = "dye" then some identityTransform
  else if s = "velocity" then some identityTransform
  else if s = "pressure" then some rToRG
  else if s = "divergence" then some rToRG
  else if s = "curl" then some rToRG
  else if s = "solid" then some identityTransform
  else none

/-- Transform resolution in `render()`:
`var transform = this.renderTransforms[renderSource] || 1;` then, unless the
value is already a matrix, `this._defaultRenderTransforms[renderSource](transform)`
(a TypeError when the default table has no such key). -/
def resolveTransform (rts : String → Option TVal) (s : String) : Except String (List ℚ) :=
  match (rts s).getD (TVal.scalar 1) with
  | TVal.matrix m => Except.ok m
  | TVal.scalar v =>
    match defaultRenderTransformsMap s with
    | some f => Except.ok (f v)
    | none => Except.error "TypeError: defaultRenderTransforms entry is not a function"

/-- `if (source.read) source = source.read` followed by `source.attach(0)`:
double buffers yield their read framebuffer, single buffers themselves, and
non-buffer properties fail (they have no `attach` method). -/
def lookupSrc {τ : Type} : SrcVal τ → Option (FBO τ)
  | SrcVal.dbl b => some b.read
  | SrcVal.single f => some f
  | SrcVal.nonBuf => none

/-- The draw computed by `render()`: looks up `this["_" + renderSource]`
(throwing when absent), resolves the transform, attaches the readable buffer and
blits to the screen viewport `(left, bottom, _width, _height)`. -/
def renderDraw {τ : Type} (st : SimState τ) : Except String (ScreenDraw τ) :=
  match underscoreProp st st.renderSource with
  | none => Except.error "render source not found"
  | some sv =>
    match resolveTransform st.renderTransforms st.renderSource with
    | Except.error e => Except.error e
    | Except.ok m =>
      match lookupSrc sv with
      | none => Except.error "TypeError: source.attach is not a function"
      | some fbo =>
        Except.ok { value := m, source := fbo.data,
                    viewport := (st.left, st.bottom, st.widthSnap.getD 0, st.heightSnap.getD 0) }

/-- `render()`: its only state effect is the draw to the screen; no field
buffer is written and no double buffer is swapped. -/
def render {τ : Type} (st : SimState τ) : Except String (SimState τ) :=
  (renderDraw st).map (fun d => { st with screen := some d })

/-- Whether an `Except` result is a success. -/
def exceptOk {ε α : Type} : Except ε α → Bool
  | Except.ok _ => true
  | Except.error _ => false

/-- The components of the state `render()` must not change: every field buffer
(contents and read/write roles) and the solids. -/
def coreBuffers {τ : Type} (st : SimState τ) :
    DoubleFBO τ × DoubleFBO τ × DoubleFBO τ × FBO τ × FBO τ × List Solid :=
  (st.dye, st.velocity, st.pressure, st.divergence, st.curl, st.solids)

/-- `_update()` from the source (pre/post render hooks and `updateTime`
bookkeeping elided): compute the clamped dt, remember `now`, resize if needed,
step unless paused, render. -/
def update {τ : Type} (sem : PassSem τ) (now : ℚ) (st : SimState τ) :
    Except String (SimState τ) :=
  let dt := tickDt st now
  let stA := { st with nowSnap := some now }
  let stB := resizeIfNeeded sem stA
  let stC := if stB.paused then stB else (step sem dt stB).1
  render stC

/-- The `color.map(v => v * 2.72)` scaling `setDye` applies to an explicit
color before splatting (2.72 modelled as the exact rational 68/25). -/
def setDyeColorScale (c : ℚ × ℚ × ℚ) : ℚ × ℚ × ℚ :=
  (c.1 * (68/25), c.2.1 * (68/25), c.2.2 * (68/25))

/-- `setDye(x, y, angle, majorSize, minorSize, color)` with an explicit color:
splat the 2.72-scaled color at the normalized point into the dye field and
swap.  (The random-color branch for an absent color is out of scope here.) -/
def setDye {τ : Type} (sem : PassSem τ) (x y angle major minor : ℚ) (c : ℚ × ℚ × ℚ)
    (st : SimState τ) : SimState τ :=
  let u : SplatU :=
    { point := (x / st.widthSnap.getD 0, y / st.heightSnap.getD 0),
      color := setDyeColorScale c, angle := -angle, major := major, minor := minor }
  { st with dye := blitSwap st.dye (sem.splat u st.dye.read.data) }

/-- The splat fragment shader, over the reals: `p = transform * (uv - point)`,
`e = exp(-dot(p,p))`, output `base*(1-e) + e*color` per channel.  The 2×2
transform is column-major `(a, b, c, d)` as built by `splatTransform`. -/
noncomputable def splatFragment (m : ℝ × ℝ × ℝ × ℝ) (point : ℝ × ℝ)
    (color : ℝ × ℝ × ℝ) (uv : ℝ × ℝ) (base : ℝ × ℝ × ℝ) : ℝ × ℝ × ℝ :=
  let px := m.1 * (uv.1 - point.1) + m.2.2.1 * (uv.2 - point.2)
  let py := m.2.1 * (uv.1 - point.1) + m.2.2.2 * (uv.2 - point.2)
  let e := Real.exp (-(px * px + py * py))
  (base.1 * (1 - e) + e * color.1,
   base.2.1 * (1 - e) + e * color.2.1,
   base.2.2 * (1 - e) + e * color.2.2)

/-- Bit length of a natural number below 2^32, written as an explicit
comparison chain so that it reduces by computation. -/
def bits32 (n : ℕ) : ℕ :=
  if n < 1 then 0 else if n < 2 then 1 else if n < 4 then 2 else if n < 8 then 3
  else if n < 16 then 4 else if n < 32 then 5 else if n < 64 then 6 else if n < 128 then 7
  else if n < 256 then 8 else if n < 512 then 9 else if n < 1024 then 10
  else if n < 2048 then 11 else if n < 4096 then 12 else if n < 8192 then 13
  else if n < 16384 then 14 else if n < 32768 then 15 else if n < 65536 then 16
  else if n < 131072 then 17 else if n < 262144 then 18 else if n < 524288 then 19
  else if n < 1048576 then 20 else if n < 2097152 then 21 else if n < 4194304 then 22
  else if n < 8388608 then 23 else if n < 16777216 then 24 else if n < 33554432 then 25
  else if n < 67108864 then 26 else if n < 134217728 then 27 else if n < 268435456 then 28
  else if n < 536870912 then 29 else if n < 1073741824 then 30
  else if n < 2147483648 then 31 else 32

/-- JS `Math.clz32` for inputs below 2^32: 32 minus the bit length. -/
def clz32 (n : ℕ) : ℕ := 32 - bits32 n

/-- `uInt16ToFloat32(hf)` from the source, bit-exactly: the 32-bit pattern the
code stores into the Uint32Array before reinterpreting it as a float32. -/
def uInt16ToFloat32bits (hf : ℕ) : ℕ :=
  let sign := (hf &&& 0x8000) <<< 16
  let expo := (hf &&& 0x7C00) >>> 10
  if expo = 0 then
    let frac := hf &&& 0x03FF
    if frac = 0 then sign
    else
      let extra := clz32 frac - 21
      sign ||| ((113 - extra) <<< 23) ||| ((hf &&& 0x01FF) <<< (13 + extra))
  else if expo < 31 then
    sign ||| ((expo + 112) <<< 23) ||| ((hf &&& 0x03FF) <<< 13)
  else
    sign ||| 0x7F800000 ||| ((hf &&& 0x03FF) <<< 13)

/-- The value described by an IEEE-754 bit pattern: a finite (exact rational)
number, an infinity, or a NaN. -/
inductive FDesc where
  | num (q : ℚ)
  | posInf
  | negInf
  | nan
deriving DecidableEq

/-- Exact value semantics of an IEEE-754 binary32 bit pattern. -/
def float32Desc (b : ℕ) : FDesc :=
  let s := b / 2 ^ 31 % 2
  let e := b / 2 ^ 23 % 2 ^ 8
  let m := b % 2 ^ 23
  if e = 255 then (if m = 0 then (if s = 1 then FDesc.negInf else FDesc.posInf) else FDesc.nan)
  else FDesc.num ((if s = 1 then (-1 : ℚ) else 1)
    * (((if e = 0 then 2 * m else (2 ^ 23 + m) * 2 ^ e : ℕ) : ℚ) / 2 ^ 150))

/-- Exact value semantics of an IEEE-754 binary16 (half-float) bit pattern —
the reference the decoder must agree with. -/
def halfDesc (hf : ℕ) : FDesc :=
  let s := hf / 2 ^ 15 % 2
  let e := hf / 2 ^ 10 % 2 ^ 5
  let m := hf % 2 ^ 10
  if e = 31 then (if m = 0 then (if s = 1 then FDesc.negInf else FDesc.posInf) else FDesc.nan)
  else FDesc.num ((if s = 1 then (-1 : ℚ) else 1)
    * (((if e = 0 then 2 ^ 16 * m else (2 ^ 10 + m) * 2 ^ (e + 15) : ℕ) : ℚ) / 2 ^ 40))

/-- A trivial texture semantics over `Unit`, used to instantiate the
parametric model at concrete inputs. -/
def semU : PassSem Unit :=
  { curl := fun _ => (), vorticity := fun _ _ _ _ => (), divergence := fun _ => (),
    pressureIter := fun _ _ => (), gradientSubtract := fun _ _ => (),
    advect := fun _ _ _ _ => (), transform := fun _ _ => (), splat := fun _ _ => (),
    ellipsis := fun _ _ => (), pressureForce := fun _ _ _ => (0, 0), clear := () }

/-- A concrete post-construction state over `Unit` texture data, with the
default configuration. -/
def stU : SimState Unit :=
  { left := 0, bottom := 0, width := 100, height := 100, simScale := 1, dyeScale := 1,
    paused := false, velocityDissipation := 1/10, dyeDissipation := 1/10,
    pressureDissipation := 0, maxSimulationStep := 1/20, pressureIterations := 20,
    curlStrength := 3, renderSource := "dye", renderTransforms := fun _ => none,
    widthSnap := some 100, heightSnap := some 100, simScaleSnap := some 1,
    dyeScaleSnap := some 1, nowSnap := none, hasBuffers := true,
    dye := ⟨⟨0, 100, 100, ()⟩, ⟨1, 100, 100, ()⟩⟩,
    velocity := ⟨⟨2, 100, 100, ()⟩, ⟨3, 100, 100, ()⟩⟩,
    pressure := ⟨⟨4, 100, 100, ()⟩, ⟨5, 100, 100, ()⟩⟩,
    divergence := ⟨6, 100, 100, ()⟩, curl := ⟨7, 100, 100, ()⟩,
    screen := none, solids := [], nextId := 8, deletedIds := [] }

/-- The solid of the mass-derivation example: density 2, radius 10, no
explicit mass. -/
def solidC1 : Solid :=
  { position := (0, 0), velocity := (0, 0), radius := 10, density := some 2, mass := none }

/-- A state whose width (3) and simScale (1/2) give a fractional buffer size,
flagged as needing a resize. -/
def stC2 : SimState Unit :=
  { stU with width := 3, simScale := 1/2, widthSnap := none, hasBuffers := false }

/-- A state whose previous-tick timestamp lies in the future of the next tick
(the system clock stepped backwards between ticks). -/
def stC3 : SimState Unit := { stU with nowSnap := some 2000 }

/-- A state used to witness the dt-clamping theorem. -/
def stW3 : SimState Unit := { stU with nowSnap := some 0 }

/-- C1 counterexample: a solid with density 2, radius 10 and no explicit mass is
NOT integrated with mass `2·π·10²` (with `simScale = 1`, the code uses
`2·π·10.5²` — the sampling-window radius, not the body's radius). -/
theorem solidMass_not_density_pi_radius_sq :
    solidMass solidC1 1 ≠ 2 * piJS * (10 * 10) := by
  norm_num [solidMass, solidC1, jsOr, sampleRadius, sampleSize, piJS]

/-- C1 (amended): for every solid with no explicit mass — density absent,
present and zero (JS-falsy, so `||` falls back to 1), or present and
non-zero — the mass used by `_updateSolids` to integrate the pressure force is
`d · π · r²`, where `d` is the density if present and non-zero and 1
otherwise, and `r = ⌊radius·simScale⌋ + 1/2` is the radius of the
pressure-sampling window in simulation-grid pixels (not the body's `radius`
field); the velocity update divides the force by exactly this mass. -/
theorem solidMass_uses_sample_radius :
    ∀ (p v pF : ℚ × ℚ) (radius simScale dt : ℚ) (density : Option ℚ),
    solidMass ⟨p, v, radius, density, none⟩ simScale
      = (match density with
         | some d => if d = 0 then 1 else d
         | none => 1) * piJS
        * (((⌊radius * simScale⌋ : ℤ) : ℚ) + 1/2)
        * (((⌊radius * simScale⌋ : ℤ) : ℚ) + 1/2)
    ∧ (updateSolidMotion pF dt simScale ⟨p, v, radius, density, none⟩).velocity
      = (v.1 + pF.1 / solidMass ⟨p, v, radius, density, none⟩ simScale,
         v.2 + pF.2 / solidMass ⟨p, v, radius, density, none⟩ simScale) := by
  intro p v pF radius simScale dt density
  constructor
  · cases density with
    | none =>
      simp only [solidMass, jsOr, sampleRadius, sampleSize]
      ring
    | some d =>
      simp only [solidMass, jsOr, sampleRadius, sampleSize]
      by_cases hd : d = 0 <;> simp only [hd, if_true, if_false] <;> ring
  · rfl

/-- C3 counterexample: if the system clock steps backwards between ticks
(previous `Date.now()` 2000 ms, current 1000 ms), the dt computed by `_update`
and passed to `step` is -1, which is below 0 — the code applies only an upper
clamp (`Math.min`), not a clamp to `[0, maxSimulationStep]`. -/
theorem tickDt_can_be_negative :
    tickDt stC3 1000 = -1 ∧ ¬(0 ≤ tickDt stC3 1000) := by
  constructor
  · norm_num [tickDt, stC3, stU, min_def]
  · norm_num [tickDt, stC3, stU, min_def]

/-- C3 (amended): the dt passed to `step` by the update loop is
`min(elapsed, maxSimulationStep)` — never above `maxSimulationStep`, and
whenever the measured elapsed time is non-negative (monotone clock) it also
equals the full clamp of the elapsed seconds to `[0, maxSimulationStep]` and is
non-negative; a backwards clock step, however, passes a negative dt through. -/
theorem tickDt_min_clamp :
    ∀ {τ : Type} (st : SimState τ) (now prev : ℚ),
    st.nowSnap = some prev → prev ≤ now → 0 ≤ st.maxSimulationStep →
    tickDt st now = max 0 (min ((now - prev) / 1000) st.maxSimulationStep)
    ∧ 0 ≤ tickDt st now ∧ tickDt st now ≤ st.maxSimulationStep := by
  intro τ st now prev h hp hm
  have h0 : 0 ≤ (now - prev) / 1000 := by
    apply div_nonneg (by linarith) (by norm_num)
  have hd : tickDt st now = min ((now - prev) / 1000) st.maxSimulationStep := by
    unfold tickDt
    rw [h]
  refine ⟨?_, ?_, ?_⟩
  · rw [hd, max_eq_right (le_min h0 hm)]
  · rw [hd]
    exact le_min h0 hm
  · rw [hd]
    exact min_le_right _ _

/-- C3 witness: the clamp property at a concrete monotone-clock instant. -/
theorem tickDt_min_clamp_witness :
    tickDt stW3 100 = max 0 (min (((100 : ℚ) - 0) / 1000) stW3.maxSimulationStep)
    ∧ 0 ≤ tickDt stW3 100 ∧ tickDt stW3 100 ≤ stW3.maxSimulationStep :=
  tickDt_min_clamp stW3 100 0 rfl (by norm_num) (by norm_num [stW3, stU])

/-- C5: the half-float decoder gets the five literal vectors of the spec right
(`0x3c00 ↦ 1.0`, `0x8000 ↦ -0.0` — bit pattern `0x80000000`, `0x7c00 ↦ +∞`,
`0xfc00 ↦ -∞`, `0x0000 ↦ 0.0`) but it is NOT a correct IEEE 754 half-to-single
conversion on every input: the subnormal input `0x0002` (true value 2⁻²³)
decodes to 2⁻²², because the unmasked leading fraction bit is OR-ed into the
exponent field. -/
theorem uInt16ToFloat32_subnormal_bug :
    float32Desc (uInt16ToFloat32bits 0x3c00) = FDesc.num 1
    ∧ uInt16ToFloat32bits 0x8000 = 0x80000000
    ∧ float32Desc (uInt16ToFloat32bits 0x8000) = FDesc.num 0
    ∧ float32Desc (uInt16ToFloat32bits 0x7c00) = FDesc.posInf
    ∧ float32Desc (uInt16ToFloat32bits 0xfc00) = FDesc.negInf
    ∧ uInt16ToFloat32bits 0x0000 = 0
    ∧ halfDesc 0x0002 = FDesc.num (1 / 8388608)
    ∧ float32Desc (uInt16ToFloat32bits 0x0002) = FDesc.num (1 / 4194304)
    ∧ float32Desc (uInt16ToFloat32bits 0x0002) ≠ halfDesc 0x0002 := by
  have b1 : uInt16ToFloat32bits 0x3c00 = 0x3F800000 := by decide
  have b2 : uInt16ToFloat32bits 0x8000 = 0x80000000 := by decide
  have b3 : uInt16ToFloat32bits 0x7c00 = 0x7F800000 := by decide
  have b4 : uInt16ToFloat32bits 0xfc00 = 0xFF800000 := by decide
  have b5 : uInt16ToFloat32bits 0x0000 = 0 := by decide
  have b6 : uInt16ToFloat32bits 0x0002 = 0x34800000 := by decide
  refine ⟨?_, b2, ?_, ?_, ?_, b5, ?_, ?_, ?_⟩
  · rw [b1]; norm_num [float32Desc]
  · rw [b2]; norm_num [float32Desc]
  · rw [b3]; norm_num [float32Desc]
  · rw [b4]; norm_num [float32Desc]
  · norm_num [halfDesc]
  · rw [b6]; norm_num [float32Desc]
  · rw [b6]; norm_num [float32Desc, halfDesc]

/-- C10: the splat fragment shader evaluated at the splat centre (`uv = point`,
so `p = transform·0 = 0` and the gaussian weight is `exp 0 = 1`) writes exactly
the uniform color, and `setDye` passes `color.map(v => v * 2.72)` as that
uniform — so the dye value written at the centre is `2.72·color`, which for a
full-intensity channel (1) exceeds 1. -/
theorem setDye_splats_272_times_color :
    ∀ (m : ℝ × ℝ × ℝ × ℝ) (pt : ℝ × ℝ) (base : ℝ × ℝ × ℝ) (c : ℚ × ℚ × ℚ),
    splatFragment m pt (((setDyeColorScale c).1 : ℝ), ((setDyeColorScale c).2.1 : ℝ),
        ((setDyeColorScale c).2.2 : ℝ)) pt base
      = ((68/25) * (c.1 : ℝ), (68/25) * (c.2.1 : ℝ), (68/25) * (c.2.2 : ℝ))
    ∧ (1 : ℚ) < (setDyeColorScale (1, 1, 1)).1 := by
  intro m pt base c
  constructor
  · have hpx : m.1 * (pt.1 - pt.1) + m.2.2.1 * (pt.2 - pt.2) = 0 := by ring
    have hpy : m.2.1 * (pt.1 - pt.1) + m.2.2.2 * (pt.2 - pt.2) = 0 := by ring
    simp only [splatFragment, setDyeColorScale, hpx, hpy]
    norm_num [Real.exp_zero]
    exact ⟨by ring, by ring, by ring⟩
  · norm_num [setDyeColorScale]

/-- The buffer-dimension invariant: every simulation-grid buffer of `st2` has
the exact size `width·simScale` of `st`, and the dye buffer `width·dyeScale`. -/
def buffersSizedAt {τ : Type} (st2 st : SimState τ) : Prop :=
  st2.velocity.read.width = st.width * st.simScale
  ∧ st2.velocity.read.height = st.height * st.simScale
  ∧ st2.velocity.write.width = st.width * st.simScale
  ∧ st2.velocity.write.height = st.height * st.simScale
  ∧ st2.pressure.read.width = st.width * st.simScale
  ∧ st2.pressure.read.height = st.height * st.simScale
  ∧ st2.pressure.write.width = st.width * st.simScale
  ∧ st2.pressure.write.height = st.height * st.simScale
  ∧ st2.divergence.width = st.width * st.simScale
  ∧ st2.divergence.height = st.height * st.simScale
  ∧ st2.curl.width = st.width * st.simScale
  ∧ st2.curl.height = st.height * st.simScale
  ∧ st2.dye.read.width = st.width * st.dyeScale
  ∧ st2.dye.read.height = st.height * st.dyeScale
  ∧ st2.dye.write.width = st.width * st.dyeScale
  ∧ st2.dye.write.height = st.height * st.dyeScale

lemma resizeBuffers_sized {τ : Type} (sem : PassSem τ) (copyData : Bool) (st : SimState τ) :
    buffersSizedAt (resizeBuffers sem copyData st) st := by
  unfold buffersSizedAt resizeBuffers
  cases h : st.hasBuffers && copyData <;>
    simp [h, blitSwap, DoubleFBO.swap]

lemma resizeIfNeeded_sized {τ : Type} (sem : PassSem τ) (st : SimState τ)
    (h : simChangedB st = true) : buffersSizedAt (resizeIfNeeded sem st) st := by
  have hb := resizeBuffers_sized sem true st
  unfold resizeIfNeeded
  rw [h]
  simp only [if_true]
  cases hw : st.widthSnap with
  | none => exact hb
  | some w =>
    dsimp only
    by_cases h0 : w ≠ 0
    · rw [if_pos h0]
      exact hb
    · rw [if_neg h0]
      exact hb

/-- C2 counterexample: with `width = 3` and `simScale = 1/2` flagged for
resize, the recreated velocity buffer's stored width is the raw product `3/2`,
not `ceil(3·(1/2)) = 2` — the code applies no `ceil`. -/
theorem resize_dims_not_ceiled :
    (resizeIfNeeded semU stC2).velocity.read.width = 3 / 2
    ∧ (resizeIfNeeded semU stC2).velocity.read.width ≠ ((⌈(3 : ℚ) * (1/2)⌉ : ℤ) : ℚ) := by
  have h := (resizeIfNeeded_sized semU stC2 rfl).1
  have hv : (resizeIfNeeded semU stC2).velocity.read.width = 3 / 2 := by
    rw [h]
    norm_num [stC2, stU]
  refine ⟨hv, ?_⟩
  rw [hv]
  have hc : (⌈(3 : ℚ) * (1/2)⌉ : ℤ) = 2 := by
    rw [Int.ceil_eq_iff]
    constructor <;> norm_num
  rw [hc]
  norm_num

/-- C2 (amended): after any tick in which width, height or either scale factor
changed, the five buffers are recreated with resolution exactly
`width·simScale × height·simScale` (dye buffer: `width·dyeScale ×
height·dyeScale`) — the raw products, with no `ceil` applied (a fractional size
is handed to WebGL as-is, which truncates it during allocation). -/
theorem resize_buffer_dims :
    ∀ {τ : Type} (sem : PassSem τ) (st : SimState τ), simChangedB st = true →
    buffersSizedAt (resizeIfNeeded sem st) st := by
  intro τ sem st h
  exact resizeIfNeeded_sized sem st h

/-- C2 witness: the invariant evaluated on a concrete changed state. -/
theorem resize_buffer_dims_witness :
    simChangedB stC2 = true ∧ buffersSizedAt (resizeIfNeeded semU stC2) stC2 :=
  ⟨rfl, resize_buffer_dims semU stC2 rfl⟩

/-- C8: when buffers are resized with content preservation (`copyData` true and
state buffers exist), the old velocity content is blitted through
`identityMatrix4(newSimWidth/oldWidth, newSimHeight/oldHeight)`, the old dye
and pressure contents through the plain `identityMatrix4()` (uniformly 1), and
all six old framebuffers are deleted. -/
theorem resize_preserves_content :
    ∀ {τ : Type} (sem : PassSem τ) (st : SimState τ), st.hasBuffers = true →
    (resizeBuffers sem true st).velocity.read.data
      = sem.transform (identityMatrix4 (st.width * st.simScale / st.velocity.read.width)
          (st.height * st.simScale / st.velocity.read.height) 1 1) st.velocity.read.data
    ∧ (resizeBuffers sem true st).dye.read.data
      = sem.transform (identityMatrix4 1 1 1 1) st.dye.read.data
    ∧ (resizeBuffers sem true st).pressure.read.data
      = sem.transform (identityMatrix4 1 1 1 1) st.pressure.read.data
    ∧ (resizeBuffers sem true st).deletedIds
      = st.deletedIds ++ [st.dye.read.id, st.dye.write.id, st.velocity.read.id,
          st.velocity.write.id, st.pressure.read.id, st.pressure.write.id] := by
  intro τ sem st h
  unfold resizeBuffers
  simp [h, blitSwap, DoubleFBO.swap]

/-- C8 witness: the preservation property on a concrete state with buffers. -/
theorem resize_preserves_content_witness :
    stU.hasBuffers = true ∧
    ((resizeBuffers semU true stU).velocity.read.data
      = semU.transform (identityMatrix4 (stU.width * stU.simScale / stU.velocity.read.width)
          (stU.height * stU.simScale / stU.velocity.read.height) 1 1) stU.velocity.read.data
    ∧ (resizeBuffers semU true stU).dye.read.data
      = semU.transform (identityMatrix4 1 1 1 1) stU.dye.read.data
    ∧ (resizeBuffers semU true stU).pressure.read.data
      = semU.transform (identityMatrix4 1 1 1 1) stU.pressure.read.data
    ∧ (resizeBuffers semU true stU).deletedIds
      = stU.deletedIds ++ [stU.dye.read.id, stU.dye.write.id, stU.velocity.read.id,
          stU.velocity.write.id, stU.pressure.read.id, stU.pressure.write.id]) :=
  ⟨rfl, resize_preserves_content semU stU rfl⟩

lemma nOccur_append (e : PassEvent) (l1 l2 : List PassEvent) :
    nOccur e (l1 ++ l2) = nOccur e l1 + nOccur e l2 := by
  induction l1 with
  | nil => simp [nOccur]
  | cons x xs ih => simp [nOccur, ih, Nat.add_assoc]

lemma nOccur_replicate_self (e : PassEvent) (n : ℕ) :
    nOccur e (List.replicate n e) = n := by
  induction n with
  | zero => simp [nOccur]
  | succ n ih =>
    simp [List.replicate_succ, nOccur, ih]
    omega

lemma nOccur_solid_replicate (n : ℕ) :
    nOccur PassEvent.pressureIterPass (List.replicate n PassEvent.solidPass) = 0 := by
  induction n with
  | zero => simp [nOccur]
  | succ n ih => simp [List.replicate_succ, nOccur, ih]

lemma solidTick_fold_fst_pressure {τ : Type} (sem : PassSem τ) (dt : ℚ) :
    ∀ (l : List Solid) (st : SimState τ) (acc : List Solid),
    ((l.foldl (solidTick sem dt) (st, acc)).1).pressure = st.pressure := by
  intro l
  induction l with
  | nil => intro st acc; rfl
  | cons s rest ih =>
    intro st acc
    simp only [List.foldl_cons, solidTick]
    exact ih _ _

lemma solidTick_fold_fst_divergence {τ : Type} (sem : PassSem τ) (dt : ℚ) :
    ∀ (l : List Solid) (st : SimState τ) (acc : List Solid),
    ((l.foldl (solidTick sem dt) (st, acc)).1).divergence = st.divergence := by
  intro l
  induction l with
  | nil => intro st acc; rfl
  | cons s rest ih =>
    intro st acc
    simp only [List.foldl_cons, solidTick]
    exact ih _ _

lemma solidTick_fold_solids {τ : Type} (sem : PassSem τ) (dt : ℚ) :
    ∀ (l : List Solid) (st : SimState τ) (acc : List Solid),
    (l.foldl (solidTick sem dt) (st, acc)).2
      = acc ++ l.map (fun s =>
          updateSolidMotion (sem.pressureForce st.pressure.read.data st.simScale s)
            dt st.simScale s) := by
  intro l
  induction l with
  | nil => intro st acc; simp
  | cons s rest ih =>
    intro st acc
    simp only [List.foldl_cons, solidTick, List.map_cons]
    rw [ih]
    simp [drawSolid, List.append_assoc]

/-- C4: for every state (hence regardless of the field values) and every dt,
`step` issues exactly `pressureIterations` Jacobi passes (no early exit, no
residual test), the default iteration count is 20, and the resulting pressure
double buffer is the `pressureIterations`-fold application of one Jacobi
iteration (read the previous estimate and the divergence, write the new
estimate, swap). -/
theorem step_fixed_pressure_iterations :
    ∀ {τ : Type} (sem : PassSem τ) (dt : ℚ) (st : SimState τ),
    nOccur PassEvent.pressureIterPass (step sem dt st).2 = st.pressureIterations
    ∧ configDefaults.pressureIterations = 20
    ∧ ∃ (d0 : τ) (pb : DoubleFBO τ), (step sem dt st).1.pressure
        = (jacobiIter sem d0)^[st.pressureIterations] pb := by
  intro τ sem dt st
  refine ⟨?_, rfl, ?_⟩
  · show nOccur PassEvent.pressureIterPass (stepEvents st) = st.pressureIterations
    unfold stepEvents
    by_cases hd : st.pressureDissipation ≠ 0 <;>
      simp [hd, nOccur_append, nOccur_replicate_self, nOccur_solid_replicate, nOccur]
  · refine ⟨(stepPre sem dt st).divergence.data, (stepPre sem dt st).pressure, ?_⟩
    show (updateSolids sem dt (stepAdvected sem dt st)).pressure = _
    simp only [updateSolids]
    rw [solidTick_fold_fst_pressure]
    rfl

/-- C9: one simulation step maps each solid in the list (in place in JS) to the
same solid with only `position` and `velocity` replaced by the integrated
values; the `radius`, `mass` and `density` fields of every solid are untouched
by `step`. -/
theorem step_mutates_only_solid_motion :
    ∀ {τ : Type} (sem : PassSem τ) (dt : ℚ) (st : SimState τ),
    ∃ pd : τ, (step sem dt st).1.solids
        = st.solids.map (fun s =>
            updateSolidMotion (sem.pressureForce pd st.simScale s) dt st.simScale s)
      ∧ ∀ i : ℕ,
        ((step sem dt st).1.solids.get? i).map Solid.radius
            = (st.solids.get? i).map Solid.radius
        ∧ ((step sem dt st).1.solids.get? i).map Solid.mass
            = (st.solids.get? i).map Solid.mass
        ∧ ((step sem dt st).1.solids.get? i).map Solid.density
            = (st.solids.get? i).map Solid.density := by
  intro τ sem dt st
  have hsc : (stepAdvected sem dt st).simScale = st.simScale := by
    simp only [stepAdvected, stepSolved, stepPre]
    split <;> rfl
  have hso : (stepAdvected sem dt st).solids = st.solids := by
    simp only [stepAdvected, stepSolved, stepPre]
    split <;> rfl
  have key : ∃ pd : τ, (step sem dt st).1.solids
      = st.solids.map (fun s =>
          updateSolidMotion (sem.pressureForce pd st.simScale s) dt st.simScale s) := by
    refine ⟨(stepAdvected sem dt st).pressure.read.data, ?_⟩
    show (updateSolids sem dt (stepAdvected sem dt st)).solids = _
    simp only [updateSolids]
    rw [solidTick_fold_solids, hso, List.nil_append]
    simp only [hsc]
  obtain ⟨pd, hmap⟩ := key
  refine ⟨pd, hmap, ?_⟩
  intro i
  rw [hmap]
  rw [List.get?_map]
  cases st.solids.get? i <;> simp [updateSolidMotion]

lemma renderDraw_screen_irrel {τ : Type} (st : SimState τ) (d : Option (ScreenDraw τ)) :
    renderDraw { st with screen := d } = renderDraw st := rfl

/-- C7: `render()` only reads: its result state keeps every field buffer
(contents and read/write roles) and the solid list of the input state, and
calling `render()` twice without an intervening `step` draws bit-identical
screen output (same transform, same source texture contents, same viewport). -/
theorem render_read_only_idempotent :
    ∀ {τ : Type} (st : SimState τ),
    Except.map coreBuffers (render st) = Except.map (fun _ => coreBuffers st) (render st)
    ∧ Except.map (fun s2 : SimState τ => s2.screen) ((render st).bind render)
      = Except.map (fun s2 : SimState τ => s2.screen) (render st) := by
  intro τ st
  cases h : renderDraw st with
  | error e =>
    constructor
    · simp [render, h, Except.map]
    · simp [render, h, Except.map, Except.bind]
  | ok d =>
    have h2 : renderDraw { st with screen := some d } = Except.ok d := by
      rw [renderDraw_screen_irrel, h]
    constructor
    · simp [render, h, Except.map, coreBuffers]
    · simp [render, h, h2, Except.map, Except.bind]

lemma defaultRT_none_of_nonBuffer (s : String) (h : s ∈ nonBufferProps) :
    defaultRenderTransformsMap s = none := by
  fin_cases h <;> rfl

lemma resolveTransform_ok_of_default (rts : String → Option TVal) (s : String)
    (hdef : (defaultRenderTransformsMap s).isSome = true) :
    ∃ m, resolveTransform rts s = Except.ok m := by
  unfold resolveTransform
  cases htv : rts s with
  | none =>
    cases hd : defaultRenderTransformsMap s with
    | none =>
      rw [hd] at hdef
      simp at hdef
    | some f => simp [hd]
  | some tv =>
    cases tv with
    | scalar v =>
      cases hd : defaultRenderTransformsMap s with
      | none =>
        rw [hd] at hdef
        simp at hdef
      | some f => simp [hd]
    | matrix mm => simp

lemma render_ok_of_field {τ : Type} (st : SimState τ)
    (h : st.renderSource = "dye" ∨ st.renderSource = "velocity"
      ∨ st.renderSource = "pressure" ∨ st.renderSource = "divergence"
      ∨ st.renderSource = "curl") :
    exceptOk (render st) = true := by
  rcases h with h | h | h | h | h
  · obtain ⟨m, hm⟩ := resolveTransform_ok_of_default st.renderTransforms "dye" rfl
    simp [render, renderDraw, underscoreProp, h, hm, lookupSrc, exceptOk, Except.map]
  · obtain ⟨m, hm⟩ := resolveTransform_ok_of_default st.renderTransforms "velocity" rfl
    simp [render, renderDraw, underscoreProp, h, hm, lookupSrc, exceptOk, Except.map]
  · obtain ⟨m, hm⟩ := resolveTransform_ok_of_default st.renderTransforms "pressure" rfl
    simp [render, renderDraw, underscoreProp, h, hm, lookupSrc, exceptOk, Except.map]
  · obtain ⟨m, hm⟩ := resolveTransform_ok_of_default st.renderTransforms "divergence" rfl
    simp [render, renderDraw, underscoreProp, h, hm, lookupSrc, exceptOk, Except.map]
  · obtain ⟨m, hm⟩ := resolveTransform_ok_of_default st.renderTransforms "curl" rfl
    simp [render, renderDraw, underscoreProp, h, hm, lookupSrc, exceptOk, Except.map]

lemma render_err_of_unknown {τ : Type} (st : SimState τ)
    (h : ¬(st.renderSource = "dye" ∨ st.renderSource = "velocity"
      ∨ st.renderSource = "pressure" ∨ st.renderSource = "divergence"
      ∨ st.renderSource = "curl")) :
    exceptOk (render st) = false := by
  push_neg at h
  obtain ⟨h1, h2, h3, h4, h5⟩ := h
  unfold render renderDraw underscoreProp
  rw [if_neg h1, if_neg h2, if_neg h3, if_neg h4, if_neg h5]
  by_cases hm : st.renderSource ∈ nonBufferProps
  · rw [if_pos hm]
    cases htv : st.renderTransforms st.renderSource with
    | none =>
      simp [resolveTransform, htv, defaultRT_none_of_nonBuffer _ hm, exceptOk, lookupSrc, Except.map]
    | some tv =>
      cases tv with
      | scalar v =>
        simp [resolveTransform, htv, defaultRT_none_of_nonBuffer _ hm, exceptOk, Except.map]
      | matrix mm =>
        simp [resolveTransform, htv, exceptOk, lookupSrc, Except.map]
  · rw [if_neg hm]
    simp [exceptOk, Except.map]

/-- C6: calling `render()` succeeds exactly for `renderSource` in the set
dye, velocity, pressure, divergence, curl (the buffers exist after
construction); every other value fails inside the `render()` call before
anything is drawn — an unknown name hits the explicit throw, a name that
collides with another underscore property (`gl`, `width`, …, including
`solid`, which has no buffer) raises a TypeError during transform or texture
resolution. -/
theorem render_source_validation :
    ∀ {τ : Type} (st : SimState τ) (s : String),
    exceptOk (render { st with renderSource := s }) = true
      ↔ (s = "dye" ∨ s = "velocity" ∨ s = "pressure" ∨ s = "divergence" ∨ s = "curl") := by
  intro τ st s
  constructor
  · intro hok
    by_contra hno
    have herr := render_err_of_unknown { st with renderSource := s } hno
    rw [herr] at hok
    exact Bool.false_ne_true hok
  · intro h5
    exact render_ok_of_field { st with renderSource := s } h5
